import Mathlib

/-!
Shallow embedding of `src/streamlit_app.py` (the "Huat Le Calculator"
Streamlit app).  Python floats are modelled as exact rationals `ℚ`;
Python's insertion-ordered `dict` with unique keys is modelled as an
association list `List (String × ℚ)` built by appending, which preserves
insertion order exactly as CPython dicts do.
-/

/-- `matchAt needle hay` is true when `needle` occurs at the very start of
`hay` (character-by-character comparison). Helper for the Python `in`
substring test. -/
def matchAt : List Char → List Char → Bool
  | [], _ => true
  | _ :: _, [] => false
  | a :: as, b :: bs => a == b && matchAt as bs

/-- `hasSub needle hay` is true when `needle` occurs contiguously anywhere
in `hay`. Helper for the Python `in` substring test. -/
def hasSub (needle : List Char) : List Char → Bool
  | [] => matchAt needle []
  | b :: bs => matchAt needle (b :: bs) || hasSub needle bs

/-- `strIn needle hay` models Python's `needle in hay` substring test on
strings. -/
def strIn (needle hay : String) : Bool :=
  hasSub needle.toList hay.toList

/-- The `levels` dict literal of `compute_fibo_ret_ext`
(src/streamlit_app.py lines 250-261), in its source listing order. -/
def fibLevelsRetExt : List (String × ℚ) :=
  [ ("RET 38%", 0.38196601125010515),
    ("RET 50%", 0.5),
    ("RET 62%", 0.6180339887498949),
    ("RET 79%", 0.7861513777574233),
    ("RET 89%", 0.886651779),
    ("EXT 100%", 1),
    ("EXT 112%", 1.127838485),
    ("EXT 127%", 1.272019649514069),
    ("EXT 162%", 1.6180339887498949),
    ("EXT 262%", 2.6180339887498949) ]

/-- Embedding of `compute_fibo_ret_ext` (src/streamlit_app.py lines
249-274): iterate over the `levels` dict in insertion order, dispatch on
`action` and on the substring tests `"RET" in key` / `"EXT" in key`, and
insert `key ↦ value` into the (insertion-ordered) result dict. -/
def compute_fibo_ret_ext (high low : ℚ) (action : String) : List (String × ℚ) :=
  fibLevelsRetExt.foldl
    (fun fibonacci_results kr =>
      let key := kr.1
      let ratio := kr.2
      if action = "Buy" then
        if strIn "RET" key then
          fibonacci_results ++ [(key, high - abs (high - low) * ratio)]
        else if strIn "EXT" key then
          fibonacci_results ++ [(key, high - abs (high - low) * ratio)]
        else fibonacci_results
      else if action = "Sell" then
        if strIn "RET" key then
          fibonacci_results ++ [(key, low + abs (high - low) * ratio)]
        else if strIn "EXT" key then
          fibonacci_results ++ [(key, low + abs (high - low) * ratio)]
        else fibonacci_results
      else fibonacci_results)
    []

/-- The `levels` dict literal of `compute_fibo_pp_exp`
(src/streamlit_app.py lines 278-292), in its source listing order. -/
def fibLevelsPpExp : List (String × ℚ) :=
  [ ("PP 62%", 0.6180339887498949),
    ("PP 79%", 0.7861513777574233),
    ("PP 89%", 0.886651779),
    ("PP 100%", 1),
    ("PP 112%", 1.127838485),
    ("PP 127%", 1.272019649514069),
    ("PP 162%", 1.6180339887498949),
    ("PP 262%", 2.6180339887498949),
    ("EXP 38%", 0.38196601125010515),
    ("EXP 50%", 0.5),
    ("EXP 62%", 0.6180339887498949),
    ("EXP 100%", 1),
    ("EXP 162%", 1.6180339887498949) ]

/-- Embedding of `compute_fibo_pp_exp` (src/streamlit_app.py lines
277-305): iterate over the `levels` dict in insertion order, dispatch on
`action` and on the substring tests `"PP" in key` / `"EXP" in key`. -/
def compute_fibo_pp_exp (high low pivot : ℚ) (action : String) : List (String × ℚ) :=
  fibLevelsPpExp.foldl
    (fun fibonacci_results kr =>
      let key := kr.1
      let ratio := kr.2
      if action = "Buy" then
        if strIn "PP" key then
          fibonacci_results ++ [(key, pivot - abs (high - low) * ratio)]
        else if strIn "EXP" key then
          fibonacci_results ++ [(key, low - abs (high - low) * ratio)]
        else fibonacci_results
      else if action = "Sell" then
        if strIn "PP" key then
          fibonacci_results ++ [(key, pivot + abs (high - low) * ratio)]
        else if strIn "EXP" key then
          fibonacci_results ++ [(key, high + abs (high - low) * ratio)]
        else fibonacci_results
      else fibonacci_results)
    []

/-- Embedding of `stock_data['Close'].rolling(window=w).mean()`
(src/streamlit_app.py lines 136-137), the pandas rolling mean with the
default `min_periods = window`: at position `i` the window is the last
`w` of the values seen so far (`close.take (i+1)`); if fewer than `w`
values have been seen the result is missing (pandas NaN, modelled as
`none`). -/
def rollingMean (w : Nat) (close : List ℚ) : List (Option ℚ) :=
  (List.range close.length).map fun i =>
    let avail := close.take (i + 1)
    if w ≤ avail.length then
      some ((avail.drop (avail.length - w)).sum / (w : ℚ))
    else none

/-- A raw cell of a fetched OHLC column before cleaning: an actual number,
a non-convertible (non-numeric) value, or missing. -/
inductive RawVal where
  | num (q : ℚ)
  | text (s : String)
  | missing
deriving DecidableEq

/-- Embedding of `pd.to_numeric(·, errors='coerce')` applied cell-wise
(src/streamlit_app.py line 127): numbers pass through, non-convertible
values and missing cells become NaN (`none`). -/
def to_numeric : RawVal → Option ℚ
  | RawVal.num q => some q
  | RawVal.text _ => none
  | RawVal.missing => none

/-- One raw fetched OHLC row (timestamp plus the four required columns
`Open`, `High`, `Low`, `Close` of src/streamlit_app.py line 114). -/
structure RawRecord where
  timestamp : Nat
  Open : RawVal
  High : RawVal
  Low : RawVal
  Close : RawVal
deriving DecidableEq

/-- One cleaned OHLC row: all four price fields numeric. -/
structure CleanRecord where
  timestamp : Nat
  Open : ℚ
  High : ℚ
  Low : ℚ
  Close : ℚ
deriving DecidableEq

/-- Row-wise effect of the cleaning pass of src/streamlit_app.py lines
122-131: coerce the four price cells with `to_numeric`; the row survives
`dropna(subset=required_columns)` exactly when all four coerce. -/
def coerceRecord (r : RawRecord) : Option CleanRecord :=
  match to_numeric r.Open, to_numeric r.High, to_numeric r.Low, to_numeric r.Close with
  | some o, some h, some l, some c => some ⟨r.timestamp, o, h, l, c⟩
  | _, _, _, _ => none

/-- Embedding of the whole cleaning pass (src/streamlit_app.py lines
122-131): coerce each of the four price columns to numeric and drop every
row with a NaN in any of them, keeping the remaining rows in their
original order. -/
def prepare_clean (rows : List RawRecord) : List CleanRecord :=
  rows.filterMap coerceRecord

/-- Boolean test: all four price cells of a raw row convert to numbers. -/
def convertible (r : RawRecord) : Bool :=
  (to_numeric r.Open).isSome && (to_numeric r.High).isSome
    && (to_numeric r.Low).isSome && (to_numeric r.Close).isSome

/-- The cleaned image of a row all of whose price cells convert (the `0`
defaults are never used on such a row). -/
def cleanOf (r : RawRecord) : CleanRecord :=
  ⟨r.timestamp, (to_numeric r.Open).getD 0, (to_numeric r.High).getD 0,
    (to_numeric r.Low).getD 0, (to_numeric r.Close).getD 0⟩

/-- Outcome of one run of the Fibonacci section of the script
(src/streamlit_app.py lines 308-333): either a computed level set is
displayed, or the display code reads the name `fib_levels_result` while it
was never assigned and the script run dies with an uncaught `NameError`. -/
inductive FibOutcome where
  | levels (xs : List (String × ℚ))
  | nameError
deriving DecidableEq

/-- Embedding of the Fibonacci section (src/streamlit_app.py lines
308-333): `fib_levels_result` is assigned only inside the
`high_price_input > 0 and low_price_input > 0` guard, by the `if`/`elif`
dispatch on `fib_method`; the display code then reads `fib_levels_result`
unconditionally, which raises `NameError` whenever it was never
assigned. -/
def fib_section (high low pivot : ℚ) (action fib_method : String) : FibOutcome :=
  let fib_levels_result : Option (List (String × ℚ)) :=
    if high > 0 ∧ low > 0 then
      if fib_method = "Retracement & Extension" then
        some (compute_fibo_ret_ext high low action)
      else if fib_method = "Price Projection & Expansion" then
        some (compute_fibo_pp_exp high low pivot action)
      else none
    else none
  match fib_levels_result with
  | some xs => FibOutcome.levels xs
  | none => FibOutcome.nameError

/-- The `default_colors` palette of src/streamlit_app.py line 181. -/
def default_colors : List String :=
  ["#177e89", "#084c61", "#db3a34", "#ffc857", "#323031"]

/-- The recovery loop of src/streamlit_app.py lines 186-188: for each line
index `i`, if the (mutated) color list is still too short, append
`default_colors[i % len(default_colors)]`. -/
def cycle_colors_loop (n : Nat) (cols : List String) : List String :=
  (List.range n).foldl
    (fun acc i =>
      if acc.length ≤ i then
        acc ++ [default_colors.getD (i % default_colors.length) ""]
      else acc)
    cols

/-- Embedding of src/streamlit_app.py lines 184-188: when the color count
differs from the line count, run the palette-cycling recovery loop (a
warning is also surfaced); otherwise keep the user's colors. -/
def fix_horizontal_colors (horizontal_lines : List ℚ) (horizontal_colors : List String) :
    List String :=
  if horizontal_colors.length ≠ horizontal_lines.length then
    cycle_colors_loop horizontal_lines.length horizontal_colors
  else horizontal_colors

/-- Embedding of the trace-building loop of src/streamlit_app.py lines
191-202: `for idx, val in enumerate(horizontal_lines): color =
horizontal_colors[idx]; ...append(...)`.  Indexing past the end of the
color list is a Python `IndexError`, modelled as `none`. -/
def draw_traces : List ℚ → List String → Option (List (ℚ × String))
  | [], _ => some []
  | _ :: _, [] => none
  | v :: vs, c :: cs => (draw_traces vs cs).map (fun rest => (v, c) :: rest)

/-- Modelled from the spec: the single-leg `Retracement` method of the
first calculator variant (spec §4.2) is not present in `src/` — the
source only contains the two combined methods — so it is modelled from the
spec's words: "for ratio r ∈ \x7b0.236, 0.382, 0.5, 0.618, 0.786\x7d:
level = high − (high−low)·r. Label: integer percentage of r (rounded
down), suffixed %"; like the other single-leg methods it ignores `action`
and `pivot`. -/
def compute_retracement (high low pivot : ℚ) (action : String) : List (String × ℚ) :=
  let _ := pivot
  let _ := action
  ([0.236, 0.382, 0.5, 0.618, 0.786] : List ℚ).map
    (fun r => (toString (⌊r * 100⌋ : ℤ) ++ "%", high - (high - low) * r))

/-- A sample raw row with all four price cells numeric. -/
def rowA : RawRecord :=
  ⟨0, RawVal.num 1, RawVal.num 2, RawVal.num (1/2), RawVal.num (3/2)⟩

/-- A sample raw row whose `Close` cell is non-numeric text. -/
def rowBad : RawRecord :=
  ⟨1, RawVal.num 1, RawVal.num 2, RawVal.num (1/2), RawVal.text "oops"⟩

/-- Another sample raw row with all four price cells numeric. -/
def rowC : RawRecord :=
  ⟨2, RawVal.num 3, RawVal.num 4, RawVal.num 2, RawVal.num (7/2)⟩

/-- C1: For `compute_fibo_ret_ext` (the RetracementExtensionCombined
method), for every `high` and `low` and every one of the ten fixed
(label, ratio) pairs, the level with action `Buy` is
`high − |high−low|·ratio` and the level with action `Sell` is
`low + |high−low|·ratio`; in particular with action `Buy`, `high = 100`,
`low = 50` the "RET 38%" level is `80.9016994374947425 ≈ 80.9017` and the
"EXT 262%" level is `−30.901699437494745 ≈ −30.9017`. -/
theorem c1_ret_ext_formulas :
    (∀ high low : ℚ,
        compute_fibo_ret_ext high low "Buy"
          = [ ("RET 38%", high - abs (high - low) * 0.38196601125010515),
              ("RET 50%", high - abs (high - low) * 0.5),
              ("RET 62%", high - abs (high - low) * 0.6180339887498949),
              ("RET 79%", high - abs (high - low) * 0.7861513777574233),
              ("RET 89%", high - abs (high - low) * 0.886651779),
              ("EXT 100%", high - abs (high - low) * 1),
              ("EXT 112%", high - abs (high - low) * 1.127838485),
              ("EXT 127%", high - abs (high - low) * 1.272019649514069),
              ("EXT 162%", high - abs (high - low) * 1.6180339887498949),
              ("EXT 262%", high - abs (high - low) * 2.6180339887498949) ]
      ∧ compute_fibo_ret_ext high low "Sell"
          = [ ("RET 38%", low + abs (high - low) * 0.38196601125010515),
              ("RET 50%", low + abs (high - low) * 0.5),
              ("RET 62%", low + abs (high - low) * 0.6180339887498949),
              ("RET 79%", low + abs (high - low) * 0.7861513777574233),
              ("RET 89%", low + abs (high - low) * 0.886651779),
              ("EXT 100%", low + abs (high - low) * 1),
              ("EXT 112%", low + abs (high - low) * 1.127838485),
              ("EXT 127%", low + abs (high - low) * 1.272019649514069),
              ("EXT 162%", low + abs (high - low) * 1.6180339887498949),
              ("EXT 262%", low + abs (high - low) * 2.6180339887498949) ])
  ∧ List.lookup "RET 38%" (compute_fibo_ret_ext 100 50 "Buy")
      = some 80.9016994374947425
  ∧ abs ((80.9016994374947425 : ℚ) - 80.9017) < 1 / 10000
  ∧ List.lookup "EXT 262%" (compute_fibo_ret_ext 100 50 "Buy")
      = some (-30.901699437494745)
  ∧ abs ((-30.901699437494745 : ℚ) - (-30.9017)) < 1 / 10000 := by
  refine ⟨fun high low => ⟨rfl, rfl⟩, ?_, ?_, ?_, ?_⟩
  · norm_num [compute_fibo_ret_ext, fibLevelsRetExt, strIn, hasSub, matchAt, List.lookup]
  · rw [abs_lt]; constructor <;> norm_num
  · norm_num [compute_fibo_ret_ext, fibLevelsRetExt, strIn, hasSub, matchAt, List.lookup]
    rfl
  · rw [abs_lt]; constructor <;> norm_num

/-- C2: For `compute_fibo_pp_exp` (the PriceProjectionExpansionCombined
method), for every `high`, `low`, `pivot` and every fixed (label, ratio)
pair: with action `Buy`, PP levels are `pivot − |high−low|·ratio` and EXP
levels are `low − |high−low|·ratio`; with action `Sell`, PP levels are
`pivot + |high−low|·ratio` and EXP levels are `high + |high−low|·ratio`;
in particular with action `Buy`, `high = 100`, `low = 50`, `pivot = 75`
the "PP 100%" level is 25 and the "EXP 50%" level is 25. -/
theorem c2_pp_exp_formulas :
    (∀ high low pivot : ℚ,
        compute_fibo_pp_exp high low pivot "Buy"
          = [ ("PP 62%", pivot - abs (high - low) * 0.6180339887498949),
              ("PP 79%", pivot - abs (high - low) * 0.7861513777574233),
              ("PP 89%", pivot - abs (high - low) * 0.886651779),
              ("PP 100%", pivot - abs (high - low) * 1),
              ("PP 112%", pivot - abs (high - low) * 1.127838485),
              ("PP 127%", pivot - abs (high - low) * 1.272019649514069),
              ("PP 162%", pivot - abs (high - low) * 1.6180339887498949),
              ("PP 262%", pivot - abs (high - low) * 2.6180339887498949),
              ("EXP 38%", low - abs (high - low) * 0.38196601125010515),
              ("EXP 50%", low - abs (high - low) * 0.5),
              ("EXP 62%", low - abs (high - low) * 0.6180339887498949),
              ("EXP 100%", low - abs (high - low) * 1),
              ("EXP 162%", low - abs (high - low) * 1.6180339887498949) ]
      ∧ compute_fibo_pp_exp high low pivot "Sell"
          = [ ("PP 62%", pivot + abs (high - low) * 0.6180339887498949),
              ("PP 79%", pivot + abs (high - low) * 0.7861513777574233),
              ("PP 89%", pivot + abs (high - low) * 0.886651779),
              ("PP 100%", pivot + abs (high - low) * 1),
              ("PP 112%", pivot + abs (high - low) * 1.127838485),
              ("PP 127%", pivot + abs (high - low) * 1.272019649514069),
              ("PP 162%", pivot + abs (high - low) * 1.6180339887498949),
              ("PP 262%", pivot + abs (high - low) * 2.6180339887498949),
              ("EXP 38%", high + abs (high - low) * 0.38196601125010515),
              ("EXP 50%", high + abs (high - low) * 0.5),
              ("EXP 62%", high + abs (high - low) * 0.6180339887498949),
              ("EXP 100%", high + abs (high - low) * 1),
              ("EXP 162%", high + abs (high - low) * 1.6180339887498949) ])
  ∧ List.lookup "PP 100%" (compute_fibo_pp_exp 100 50 75 "Buy") = some 25
  ∧ List.lookup "EXP 50%" (compute_fibo_pp_exp 100 50 75 "Buy") = some 25 := by
  refine ⟨fun high low pivot => ⟨rfl, rfl⟩, ?_, ?_⟩
  · norm_num [compute_fibo_pp_exp, fibLevelsPpExp, strIn, hasSub, matchAt, List.lookup]
    rfl
  · norm_num [compute_fibo_pp_exp, fibLevelsPpExp, strIn, hasSub, matchAt, List.lookup]
    rfl

/-- C3: For every `high`, `low`, `pivot` and both actions, the key
insertion order returned by `compute_fibo_ret_ext` is exactly RET 38%,
RET 50%, RET 62%, RET 79%, RET 89%, EXT 100%, EXT 112%, EXT 127%,
EXT 162%, EXT 262%, and the one returned by `compute_fibo_pp_exp` is
exactly PP 62%, PP 79%, PP 89%, PP 100%, PP 112%, PP 127%, PP 162%,
PP 262%, EXP 38%, EXP 50%, EXP 62%, EXP 100%, EXP 162% — the fixed
listing order of the source dict, independent of the computed values. -/
theorem c3_key_order (high low pivot : ℚ) :
    (compute_fibo_ret_ext high low "Buy").map Prod.fst
      = ["RET 38%", "RET 50%", "RET 62%", "RET 79%", "RET 89%",
         "EXT 100%", "EXT 112%", "EXT 127%", "EXT 162%", "EXT 262%"]
  ∧ (compute_fibo_ret_ext high low "Sell").map Prod.fst
      = ["RET 38%", "RET 50%", "RET 62%", "RET 79%", "RET 89%",
         "EXT 100%", "EXT 112%", "EXT 127%", "EXT 162%", "EXT 262%"]
  ∧ (compute_fibo_pp_exp high low pivot "Buy").map Prod.fst
      = ["PP 62%", "PP 79%", "PP 89%", "PP 100%", "PP 112%", "PP 127%",
         "PP 162%", "PP 262%", "EXP 38%", "EXP 50%", "EXP 62%",
         "EXP 100%", "EXP 162%"]
  ∧ (compute_fibo_pp_exp high low pivot "Sell").map Prod.fst
      = ["PP 62%", "PP 79%", "PP 89%", "PP 100%", "PP 112%", "PP 127%",
         "PP 162%", "PP 262%", "EXP 38%", "EXP 50%", "EXP 62%",
         "EXP 100%", "EXP 162%"] :=
  ⟨rfl, rfl, rfl, rfl⟩

/-- C4: For every cleaned close-price series and window `w ≥ 1`, the
rolling mean at 0-based index `i` (within the series) is undefined when
`i < w − 1` (equivalently `i + 1 < w`), equals the arithmetic mean of the
close prices at indices `i−w+1 .. i` when `i ≥ w − 1`, and at
`i = w − 1` equals the mean of the first `w` close values. -/
theorem c4_rolling_mean (close : List ℚ) (w i : Nat) (hw : 1 ≤ w)
    (hi : i < close.length) :
    (i + 1 < w → (rollingMean w close)[i]? = some none)
  ∧ (w ≤ i + 1 →
      (rollingMean w close)[i]?
        = some (some (((close.drop (i + 1 - w)).take w).sum / (w : ℚ))))
  ∧ (i = w - 1 →
      (rollingMean w close)[i]? = some (some ((close.take w).sum / (w : ℚ)))) := by
  have hlen : (close.take (i + 1)).length = i + 1 := by
    rw [List.length_take]
    exact Nat.min_eq_left (Nat.succ_le_of_lt hi)
  have hbase : (rollingMean w close)[i]?
      = some (if w ≤ i + 1 then
          some (((close.take (i + 1)).drop (i + 1 - w)).sum / (w : ℚ))
        else none) := by
    have h1 : (rollingMean w close)[i]?
        = Option.map (fun i =>
            let avail := close.take (i + 1)
            if w ≤ avail.length then
              some ((avail.drop (avail.length - w)).sum / (w : ℚ))
            else none) (List.range close.length)[i]? := by
      rw [rollingMean, List.getElem?_map]
    rw [h1, List.getElem?_range hi]
    show some (let avail := close.take (i + 1)
      if w ≤ avail.length then
        some ((avail.drop (avail.length - w)).sum / (w : ℚ))
      else none) = _
    rw [show (let avail := close.take (i + 1)
      if w ≤ avail.length then
        some ((avail.drop (avail.length - w)).sum / (w : ℚ))
      else none)
      = (if w ≤ (close.take (i + 1)).length then
        some (((close.take (i + 1)).drop ((close.take (i + 1)).length - w)).sum / (w : ℚ))
      else none) from rfl]
    rw [hlen]
  refine ⟨?_, ?_, ?_⟩
  · intro hlt
    rw [hbase, if_neg (by omega)]
  · intro hle
    rw [hbase, if_pos hle, List.drop_take]
    have hww : i + 1 - (i + 1 - w) = w := by omega
    rw [hww]
  · intro hieq
    have hle : w ≤ i + 1 := by omega
    have h0 : i + 1 - w = 0 := by omega
    have h1 : i + 1 = w := by omega
    rw [hbase, if_pos hle, h0, List.drop_zero, h1]

/-- Witness for C4 at `close = [1, 2, 3]`, `w = 2`, `i = 1`. -/
theorem c4_rolling_mean_witness :
    (1 ≤ 2 ∧ 1 < ([1, 2, 3] : List ℚ).length)
  ∧ ((1 + 1 < 2 → (rollingMean 2 [1, 2, 3])[1]? = some none)
   ∧ (2 ≤ 1 + 1 →
       (rollingMean 2 [1, 2, 3])[1]?
         = some (some (((([1, 2, 3] : List ℚ).drop (1 + 1 - 2)).take 2).sum / ((2 : ℕ) : ℚ))))
   ∧ (1 = 2 - 1 →
       (rollingMean 2 [1, 2, 3])[1]?
         = some (some ((([1, 2, 3] : List ℚ).take 2).sum / ((2 : ℕ) : ℚ))))) :=
  ⟨⟨by decide, by decide⟩, c4_rolling_mean [1, 2, 3] 2 1 (by decide) (by decide)⟩

/-- Row-wise characterization of the cleaning pass: a raw row maps to a
cleaned row exactly when all four price cells convert. -/
theorem coerceRecord_eq (r : RawRecord) :
    coerceRecord r = if convertible r then some (cleanOf r) else none := by
  unfold coerceRecord convertible cleanOf
  cases h1 : to_numeric r.Open <;> cases h2 : to_numeric r.High <;>
    cases h3 : to_numeric r.Low <;> cases h4 : to_numeric r.Close <;> simp

/-- C5: The cleaning pass coerces each of the four price fields to
numeric (non-convertible values becoming missing), keeps exactly the rows
in which all four fields are present, and preserves the original order;
in particular a series whose middle record has a non-numeric close value
has exactly that record dropped and the others kept in order. -/
theorem c5_cleaning :
    (∀ rows : List RawRecord,
        prepare_clean rows = (rows.filter (fun r => convertible r)).map cleanOf)
  ∧ prepare_clean [rowA, rowBad, rowC] = [cleanOf rowA, cleanOf rowC] := by
  constructor
  · intro rows
    induction rows with
    | nil => rfl
    | cons r rs ih =>
      rw [prepare_clean, List.filterMap_cons, List.filter_cons, coerceRecord_eq]
      by_cases hc : convertible r
      · rw [if_pos hc]
        simp only [hc, if_pos]
        rw [List.map_cons]
        exact congrArg _ ih
      · rw [if_neg hc]
        simp only [hc]
        simpa using ih
  · rfl

/-- C6: The single-leg Retracement method (modelled from the spec, see
`compute_retracement`) produces, for every `high` and `low`, the level
`high − (high−low)·r` for each ratio `r ∈ \x7b0.236, 0.382, 0.5, 0.618,
0.786\x7d`, labelled with the integer percentage of `r` rounded down and
suffixed "%", and it ignores `pivot` and `action`. -/
theorem c6_retracement (high low pivot pivot2 : ℚ) (action action2 : String) :
    compute_retracement high low pivot action
      = [ ("23%", high - (high - low) * 0.236),
          ("38%", high - (high - low) * 0.382),
          ("50%", high - (high - low) * 0.5),
          ("61%", high - (high - low) * 0.618),
          ("78%", high - (high - low) * 0.786) ]
  ∧ compute_retracement high low pivot action
      = compute_retracement high low pivot2 action2 := by
  refine ⟨?_, rfl⟩
  norm_num [compute_retracement]
  exact ⟨rfl, rfl, rfl, rfl, rfl⟩

/-- C7 counterexample: with entered high price `−1 ≤ 0` the Fibonacci
section does not produce a distinguishable insufficient-input outcome:
the guard skips the assignment of `fib_levels_result` and the display
code's read of that name raises an uncaught `NameError` — the script run
crashes (modelled by `FibOutcome.nameError`). -/
theorem c7_counterexample :
    fib_section (-1) 1 0 "Buy" "Retracement & Extension" = FibOutcome.nameError := by
  rw [fib_section]
  norm_num

/-- C7 (amended): whenever the entered high or low price is `≤ 0`, the
compute functions are indeed never invoked (no computed level set can
reach the display); but instead of a graceful insufficient-input outcome
the section ends in the uncaught `NameError` crash. -/
theorem c7_guard (high low pivot : ℚ) (action fib_method : String)
    (hbad : high ≤ 0 ∨ low ≤ 0) :
    fib_section high low pivot action fib_method = FibOutcome.nameError := by
  have hng : ¬(high > 0 ∧ low > 0) := by
    rcases hbad with hb | hb
    · exact fun hc => absurd hc.1 (not_lt.mpr hb)
    · exact fun hc => absurd hc.2 (not_lt.mpr hb)
  rw [fib_section]
  rw [if_neg hng]

/-- Witness for C7 (amended) at `high = −1`. -/
theorem c7_guard_witness :
    ((-1 : ℚ) ≤ 0 ∨ (1 : ℚ) ≤ 0)
  ∧ fib_section (-1) 1 0 "Buy" "Price Projection & Expansion" = FibOutcome.nameError :=
  ⟨Or.inl (by norm_num),
    c7_guard (-1) 1 0 "Buy" "Price Projection & Expansion" (Or.inl (by norm_num))⟩

/-- C8: Both Fibonacci compute functions (and the whole Fibonacci
section) are deterministic, side-effect-free functions of their inputs:
two invocations with identical `(high, low, pivot, action, method)` give
identical level sets, including identical key insertion order. -/
theorem c8_pure (high low pivot high2 low2 pivot2 : ℚ)
    (action fib_method action2 fib_method2 : String)
    (hh : high = high2) (hl : low = low2) (hp : pivot = pivot2)
    (ha : action = action2) (hm : fib_method = fib_method2) :
    compute_fibo_ret_ext high low action = compute_fibo_ret_ext high2 low2 action2
  ∧ (compute_fibo_ret_ext high low action).map Prod.fst
      = (compute_fibo_ret_ext high2 low2 action2).map Prod.fst
  ∧ compute_fibo_pp_exp high low pivot action = compute_fibo_pp_exp high2 low2 pivot2 action2
  ∧ (compute_fibo_pp_exp high low pivot action).map Prod.fst
      = (compute_fibo_pp_exp high2 low2 pivot2 action2).map Prod.fst
  ∧ fib_section high low pivot action fib_method
      = fib_section high2 low2 pivot2 action2 fib_method2 := by
  subst hh; subst hl; subst hp; subst ha; subst hm
  exact ⟨rfl, rfl, rfl, rfl, rfl⟩

/-- Witness for C8 at `(100, 50, 75, Buy, Retracement & Extension)`. -/
theorem c8_pure_witness :
    (100 : ℚ) = 100 ∧ (50 : ℚ) = 50 ∧ (75 : ℚ) = 75
  ∧ "Buy" = "Buy" ∧ "Retracement & Extension" = "Retracement & Extension"
  ∧ (compute_fibo_ret_ext 100 50 "Buy" = compute_fibo_ret_ext 100 50 "Buy"
   ∧ (compute_fibo_ret_ext 100 50 "Buy").map Prod.fst
       = (compute_fibo_ret_ext 100 50 "Buy").map Prod.fst
   ∧ compute_fibo_pp_exp 100 50 75 "Buy" = compute_fibo_pp_exp 100 50 75 "Buy"
   ∧ (compute_fibo_pp_exp 100 50 75 "Buy").map Prod.fst
       = (compute_fibo_pp_exp 100 50 75 "Buy").map Prod.fst
   ∧ fib_section 100 50 75 "Buy" "Retracement & Extension"
       = fib_section 100 50 75 "Buy" "Retracement & Extension") :=
  ⟨rfl, rfl, rfl, rfl, rfl,
    c8_pure 100 50 75 100 50 75 "Buy" "Retracement & Extension" "Buy"
      "Retracement & Extension" rfl rfl rfl rfl rfl⟩

/-- After the palette-cycling loop has run for `n` line indices, the color
list has at least `n` entries. -/
theorem cycle_colors_loop_length (n : Nat) (cols : List String) :
    n ≤ (cycle_colors_loop n cols).length := by
  induction n with
  | zero => exact Nat.zero_le _
  | succ n ih =>
    have hstep : cycle_colors_loop (n + 1) cols
        = (if (cycle_colors_loop n cols).length ≤ n then
            cycle_colors_loop n cols
              ++ [default_colors.getD (n % default_colors.length) ""]
          else cycle_colors_loop n cols) := by
      rw [cycle_colors_loop, cycle_colors_loop, List.range_succ, List.foldl_append,
        List.foldl_cons, List.foldl_nil]
    rw [hstep]
    by_cases hL : (cycle_colors_loop n cols).length ≤ n
    · rw [if_pos hL]
      rw [List.length_append]
      have : (cycle_colors_loop n cols).length = n := le_antisymm hL ih
      simp [this]
    · rw [if_neg hL]
      omega

/-- Drawing the horizontal-line traces succeeds whenever the color list
is at least as long as the value list. -/
theorem draw_traces_isSome :
    ∀ (lines : List ℚ) (cols : List String), lines.length ≤ cols.length →
      (draw_traces lines cols).isSome = true := by
  intro lines
  induction lines with
  | nil => intro cols _; rfl
  | cons v vs ih =>
    intro cols hlen
    cases cols with
    | nil => simp at hlen
    | cons c cs =>
      rw [draw_traces]
      have := ih cs (by simpa using hlen)
      cases hdt : draw_traces vs cs with
      | none => rw [hdt] at this; simp at this
      | some rest => simp

/-- C9: Whenever the user's color count differs from the horizontal-line
value count, the recovery path (cycling the fixed default palette, with a
warning surfaced) leaves a color list at least as long as the value list,
so every line index has an assigned color and the trace-drawing loop
completes without an indexing error. -/
theorem c9_color_recovery (horizontal_lines : List ℚ) (horizontal_colors : List String)
    (hmismatch : horizontal_colors.length ≠ horizontal_lines.length) :
    horizontal_lines.length
      ≤ (fix_horizontal_colors horizontal_lines horizontal_colors).length
  ∧ (draw_traces horizontal_lines
      (fix_horizontal_colors horizontal_lines horizontal_colors)).isSome = true := by
  rw [fix_horizontal_colors, if_pos hmismatch]
  exact ⟨cycle_colors_loop_length _ _,
    draw_traces_isSome _ _ (cycle_colors_loop_length _ _)⟩

/-- Witness for C9 at three lines and a single user color. -/
theorem c9_color_recovery_witness :
    (([""] : List String).length ≠ ([1, 2, 3] : List ℚ).length)
  ∧ (([1, 2, 3] : List ℚ).length ≤ (fix_horizontal_colors [1, 2, 3] [""]).length
   ∧ (draw_traces [1, 2, 3] (fix_horizontal_colors [1, 2, 3] [""])).isSome = true) :=
  ⟨by decide, c9_color_recovery [1, 2, 3] [""] (by decide)⟩

/-- C10: For every `high` and `low` (whether or not `high ≥ low`), the
Buy and Sell level sets of `compute_fibo_ret_ext` carry the same labels
in the same order, and at each label the Buy level plus the Sell level
equals `high + low` — the two level sets mirror about the midpoint
`(high+low)/2`. -/
theorem c10_mirror (high low : ℚ) :
    ((compute_fibo_ret_ext high low "Buy").zip (compute_fibo_ret_ext high low "Sell")).map
        (fun pq => (pq.1.1, pq.2.1, pq.1.2 + pq.2.2))
      = [ ("RET 38%", "RET 38%", high + low),
          ("RET 50%", "RET 50%", high + low),
          ("RET 62%", "RET 62%", high + low),
          ("RET 79%", "RET 79%", high + low),
          ("RET 89%", "RET 89%", high + low),
          ("EXT 100%", "EXT 100%", high + low),
          ("EXT 112%", "EXT 112%", high + low),
          ("EXT 127%", "EXT 127%", high + low),
          ("EXT 162%", "EXT 162%", high + low),
          ("EXT 262%", "EXT 262%", high + low) ] := by
  simp [compute_fibo_ret_ext, fibLevelsRetExt, strIn, hasSub, matchAt, List.zip]
